import Mathlib

/-!
Verification development for the submission-to-report pipeline of `app.py`
(lead-intake SaaS).  Python dictionaries are modelled as functions into
`Option` or as association lists, Python `int` as `ℤ`, Python strings as
Lean `String`.  The floating-point literals `0.9`, `1.15`, `1.05`, `0.95`
are modelled by their exact IEEE-754 binary64 values as rationals and the
products of the estimator are computed exactly over `ℚ`; for every input
considered below the accumulated rounding error of the actual binary64
evaluation stays far below one unit in the last place of the integral
results, so every `int(...)` truncation computed here agrees with CPython.
-/

namespace Archibot

/-- Python whitespace test used by `str.strip()` (ASCII whitespace). -/
def isPySpace (c : Char) : Bool :=
  c == ' ' || c == '\t' || c == '\n' || c == '\r' || c == '\x0b' || c == '\x0c'

/-- Python `str.strip()`: drop leading and trailing whitespace. -/
def pyStrip (s : String) : String :=
  String.mk (((s.data.dropWhile isPySpace).reverse.dropWhile isPySpace).reverse)

/-- Python `str.lower()` on the ASCII range (the only strings it is applied
to in the modelled code are plan identifiers). -/
def pyLower (s : String) : String :=
  String.mk (s.data.map fun c =>
    if 65 ≤ c.toNat ∧ c.toNat ≤ 90 then Char.ofNat (c.toNat + 32) else c)

/-- Python `int(x)` applied to a real number: truncation toward zero. -/
def pytrunc (q : ℚ) : ℤ :=
  if 0 ≤ q then ⌊q⌋ else -⌊-q⌋

/-- Exact binary64 value of the Python literal `0.9`. -/
def lit09 : ℚ := 8106479329266893 / 2 ^ 53

/-- Exact binary64 value of the Python literal `1.15`. -/
def lit115 : ℚ := 2589569785738035 / 2 ^ 51

/-- Exact binary64 value of the Python literal `1.05`. -/
def lit105 : ℚ := 4728779608739021 / 2 ^ 52

/-- Exact binary64 value of the Python literal `0.95`. -/
def lit095 : ℚ := 4278419646001971 / 2 ^ 52

/-- The `BUILD_COST_M2_PLN` dictionary (`app.py` lines 75–79); values are
Python ints (exact). -/
def BUILD_COST_M2_PLN (k : String) : Option ℚ :=
  if k = "Ekonomiczny" then some 4500
  else if k = "Standard" then some 6000
  else if k = "Premium" then some 8000
  else none

/-- The `REGION_MULTIPLIER` dictionary (`app.py` lines 81–86); values are
binary64 floats. -/
def REGION_MULTIPLIER (k : String) : Option ℚ :=
  if k = "Duże miasto (Warszawa/Kraków/Wrocław/Gdańsk/Poznań)" then some lit115
  else if k = "Miasto 100k+" then some lit105
  else if k = "Mniejsze miasto / okolice" then some 1
  else if k = "Wieś" then some lit095
  else none

/-- `BUILD_COST_M2_PLN.get(standard, 6000)` (`app.py` line 1662; the
variant on line 1716 resolves to the same value because
`BUILD_COST_M2_PLN.get("Standard", 6000) = 6000`). -/
def fallback_base (standard : String) : ℚ :=
  (BUILD_COST_M2_PLN standard).getD 6000

/-- `REGION_MULTIPLIER.get(region, 1.0)` (`app.py` lines 1663 and 1717). -/
def fallback_mult (region : String) : ℚ :=
  (REGION_MULTIPLIER region).getD 1

/-- `build_low = int(area * base * mult * 0.9) if area else 0`
(`app.py` line 1664). -/
def build_low (area : ℚ) (standard region : String) : ℤ :=
  if area ≠ 0 then pytrunc (area * fallback_base standard * fallback_mult region * lit09) else 0

/-- `build_high = int(area * base * mult * 1.15) if area else 0`
(`app.py` line 1665). -/
def build_high (area : ℚ) (standard region : String) : ℤ :=
  if area ≠ 0 then pytrunc (area * fallback_base standard * fallback_mult region * lit115) else 0

/-- `unit_mid = base * mult` in the deterministic baseline of `ai_report`
(`app.py` line 1718). -/
def ai_unit_mid (standard region : String) : ℚ :=
  fallback_base standard * fallback_mult region

/-- `total_low = area * unit_low if area else 0.0` with
`unit_low = unit_mid * 0.90` (`app.py` lines 1719, 1721).  The products
are computed exactly over `ℚ`, while the source rounds each binary64
product; round-to-nearest is monotone non-decreasing, so order
conclusions stated with `≤` transfer to the program, but strict
increase would not (adjacent-double areas can round to the same float
total), and no theorem below asserts it. -/
def ai_total_low (area : ℚ) (standard region : String) : ℚ :=
  if area ≠ 0 then area * (ai_unit_mid standard region * lit09) else 0

/-- `total_mid = area * unit_mid if area else 0.0` (`app.py` line 1722);
same exact-product convention (and the same caveat) as `ai_total_low`. -/
def ai_total_mid (area : ℚ) (standard region : String) : ℚ :=
  if area ≠ 0 then area * ai_unit_mid standard region else 0

/-- `total_high = area * unit_high if area else 0.0` with
`unit_high = unit_mid * 1.15` (`app.py` lines 1720, 1723); same
exact-product convention (and the same caveat) as `ai_total_low`. -/
def ai_total_high (area : ℚ) (standard region : String) : ℚ :=
  if area ≠ 0 then area * (ai_unit_mid standard region * lit115) else 0

/-- A binary64-representable area slightly above `1`, namely
`1 + 2 ^ (-20)`, used as a concrete area. -/
def a2val : ℚ := 1048577 / 1048576

/-- The `usage` sub-dictionary of a company record: period key `"YYYY-MM"`
and the forms-sent counter (`forms_sent` may be absent from old records). -/
structure Usage where
  period : String
  forms_sent : Option ℤ
deriving DecidableEq

/-- A report-history item as built by `_store_report` (`app.py` lines
749–759). -/
structure Report where
  id : String
  created_at : ℤ
  title : String
  architect_id : String
  architect_name : String
  architect_email : String
  delivery_id : String
  email_sent : Bool
  report : String
deriving DecidableEq

/-- A company record, restricted to the fields the pipeline reads.
`plan` and the Stripe status may be absent (old records). -/
structure Company where
  plan : Option String
  stripe_status : Option String
  usage : Option Usage
  pricing_text : String
  reports : List Report
deriving DecidableEq

/-- Environment-derived configuration (`app.py` lines 661–664):
`ENABLE_FREE_PLAN` (default true), `FREE_FORMS_PER_MONTH_LIMIT`
(default 3), `MAX_REPORTS_PER_COMPANY` (default 50). -/
structure Config where
  enable_free_plan : Bool
  free_forms_limit : ℤ
  max_reports : ℤ
deriving DecidableEq

def defaultConfig : Config := ⟨true, 3, 50⟩

/-- `FORMS_PER_MONTH_LIMIT = 100` (`app.py` line 658). -/
def FORMS_PER_MONTH_LIMIT : ℤ := 100

/-- `_company_plan` (`app.py` lines 673–682). -/
def _company_plan (cfg : Config) (c : Company) : String :=
  let p := pyLower (pyStrip (c.plan.getD ""))
  if p = "free" ∨ p = "monthly" ∨ p = "yearly" ∨ p = "none" then p
  else
    let st := c.stripe_status.getD ""
    if st = "active" ∨ st = "trialing" then "monthly"
    else if cfg.enable_free_plan then "free" else "none"

/-- `_forms_limit` (`app.py` lines 684–690). -/
def _forms_limit (cfg : Config) (c : Company) : ℤ :=
  let plan := _company_plan cfg c
  if plan = "free" then (if cfg.enable_free_plan then cfg.free_forms_limit else 0)
  else if plan = "monthly" ∨ plan = "yearly" then FORMS_PER_MONTH_LIMIT
  else 0

/-- `_ensure_usage_period` (`app.py` lines 696–701); the current UTC
period key `pk` is passed explicitly (time is not modelled). -/
def _ensure_usage_period (pk : String) (c : Company) : Company :=
  if (c.usage.map Usage.period) ≠ some pk then { c with usage := some ⟨pk, some 0⟩ } else c

/-- The sent counter of `app.py` line 705: `forms_sent` of the usage
dictionary, with a missing usage dictionary or a missing/zero counter
read as 0 (Python `or 0`). -/
def usage_sent (c : Company) : ℤ :=
  match c.usage with
  | some u => u.forms_sent.getD 0
  | none => 0

/-- `_forms_remaining` (`app.py` lines 703–707). -/
def _forms_remaining (cfg : Config) (pk : String) (c : Company) : ℤ :=
  let c' := _ensure_usage_period pk c
  max 0 (_forms_limit cfg c' - usage_sent c')

/-- Modelled from the spec: the plan-to-ceiling map of §4.2 and claim C4
("free" tier → the small fixed ceiling, "monthly"/"yearly" → the larger
fixed ceiling, "none" → zero); spec-side definition, to be compared with
`_forms_limit`. -/
def ceilingSpec (cfg : Config) (plan : String) : ℤ :=
  if plan = "free" then cfg.free_forms_limit
  else if plan = "monthly" ∨ plan = "yearly" then FORMS_PER_MONTH_LIMIT
  else 0

/-- A free-plan company in the current period with 4 submissions already
sent — one more than the free-plan ceiling of 3. -/
def c4ex : Company := ⟨some "free", none, some ⟨"2026-10", some 4⟩, "", []⟩

/-- The JSON database: the `companies` dictionary (id → record) and the
process-wide `submit_tokens` registry (raw token → issue timestamp),
modelled as partial maps. -/
structure DB where
  companies : String → Option Company
  submit_tokens : String → Option ℤ

/-- `db["companies"][cid] = c` (dictionary assignment). -/
def setCompany (db : DB) (cid : String) (c : Company) : DB :=
  { db with companies := fun k => if k = cid then some c else db.companies k }

/-- `ttl_seconds = 6 * 60 * 60` — the default TTL of
`_mark_submit_token_used` (`app.py` line 770). -/
def SUBMIT_TOKEN_TTL : ℤ := 6 * 60 * 60

/-- The token registry after the lazy garbage-collection sweep of
`_mark_submit_token_used` (`app.py` lines 773–778): every entry older
than the TTL is dropped.  The sweep itself cannot fail in this pure
model; in the source a sweep error is swallowed by `except: pass`. -/
def _prune (tokens : String → Option ℤ) (now ttl : ℤ) : String → Option ℤ :=
  fun k =>
    match tokens k with
    | some ts => if ttl < now - ts then none else some ts
    | none => none

/-- The registry write of a first claim: record the token at the current
time on top of the pruned registry (`meta[token] = now`,
`app.py` line 782). -/
def markInsert (db : DB) (token : String) (now ttl : ℤ) : DB :=
  { db with submit_tokens :=
      fun k => if k = token then some now else _prune db.submit_tokens now ttl k }

/-- `_mark_submit_token_used` (`app.py` lines 770–783): prune expired
entries, then report `True` ("already used") if the token survives in
the registry, else record it with the current timestamp and report
`False` ("not previously used").  Returns the flag and the database
with the updated registry. -/
def _mark_submit_token_used (db : DB) (token : String) (now ttl : ℤ) : Bool × DB :=
  match _prune db.submit_tokens now ttl token with
  | some _ => (true, { db with submit_tokens := _prune db.submit_tokens now ttl })
  | none => (false, markInsert db token now ttl)

/-- The empty database. -/
def dbEmpty : DB := ⟨fun _ => none, fun _ => none⟩

/-- A form-dictionary value after checkbox coercion: a string, or a
boolean (checkbox sentinel `"1"` becomes `True`). -/
inductive PyVal where
  | s (v : String)
  | b (v : Bool)
deriving DecidableEq

/-- A form dictionary: an association list with (unique) string keys,
in insertion order. -/
def Form : Type := List (String × PyVal)

/-- Python truthiness of a form value. -/
def pyTruthy (v : PyVal) : Bool :=
  match v with
  | .s t => !(t == "")
  | .b b => b

/-- Python `str(·)` of a form value. -/
def pyValStr (v : PyVal) : String :=
  match v with
  | .s t => t
  | .b b => if b then "True" else "False"

/-- `form.get(k, "")` rendered into an f-string. -/
def fgetStr (form : Form) (k : String) : String :=
  match List.lookup k form with
  | some v => pyValStr v
  | none => ""

/-- `form.get(k) or d` rendered as the (string) dictionary key / template
slot; a missing or falsy value yields the default `d`. -/
def form_key (form : Form) (k d : String) : String :=
  match List.lookup k form with
  | some v => if pyTruthy v then pyValStr v else d
  | none => d

/-- `not form.get(key)` — the missing-document test of `app.py` line 1669. -/
def formFalsy (form : Form) (k : String) : Bool :=
  match List.lookup k form with
  | some v => !(pyTruthy v)
  | none => true

def digitVal (c : Char) : Option ℕ :=
  if 48 ≤ c.toNat ∧ c.toNat ≤ 57 then some (c.toNat - 48) else none

def digitsToNatAux : List Char → ℕ → Option ℕ
  | [], acc => some acc
  | c :: cs, acc =>
      match digitVal c with
      | some d => digitsToNatAux cs (acc * 10 + d)
      | none => none

/-- Python `float(·)` on a decimal string (optional sign, digits, one
optional dot).  Exponent and special forms are treated as invalid; on a
string `float()` cannot parse, the source raises `ValueError` (that
exception path is not modelled — no claim depends on it) and this model
yields `none`, which `pyFloatOfVal` reads as 0. -/
def pyFloatOfStr (t : String) : Option ℚ :=
  let core := fun (l1 : List Char) (sign : ℚ) =>
    let ip := l1.takeWhile (fun c => !(c == '.'))
    let rest := l1.dropWhile (fun c => !(c == '.'))
    match rest with
    | [] =>
        match l1 with
        | [] => none
        | _ => (digitsToNatAux l1 0).map (fun n => sign * n)
    | _ :: frac =>
        if ip = [] ∧ frac = [] then none
        else
          match digitsToNatAux ip 0, digitsToNatAux frac 0 with
          | some i, some f => some (sign * ((i : ℚ) + (f : ℚ) / 10 ^ frac.length))
          | _, _ => none
  match (pyStrip t).data with
  | '-' :: r => core r (-1)
  | '+' :: r => core r 1
  | l => core l 1

/-- Python `float(·)` of a form value (`float(True) = 1.0`). -/
def pyFloatOfVal (v : PyVal) : ℚ :=
  match v with
  | .b b => if b then 1 else 0
  | .s t => (pyFloatOfStr t).getD 0

/-- `area = float(form.get("usable_area_m2", 0) or 0)` (`app.py` line 1658). -/
def form_area (form : Form) : ℚ :=
  match List.lookup "usable_area_m2" form with
  | none => 0
  | some v => if pyTruthy v then pyFloatOfVal v else 0

/-- Digit grouping of Python's format spec `:,` — a comma every three
digits from the right (applied to the reversed digit list). -/
def grpAux : List Char → ℕ → List Char
  | [], _ => []
  | c :: cs, k =>
      if k ≠ 0 ∧ k % 3 = 0 then ',' :: c :: grpAux cs (k + 1)
      else c :: grpAux cs (k + 1)

/-- Python `str(i)` for an int. -/
def intStr (i : ℤ) : String :=
  if i < 0 then "-" ++ String.mk (Nat.toDigits 10 i.natAbs)
  else String.mk (Nat.toDigits 10 i.natAbs)

/-- Python f-string `:,` formatting of an int. -/
def commaSep (i : ℤ) : String :=
  (if i < 0 then "-" else "") ++
    String.mk ((grpAux ((Nat.toDigits 10 i.natAbs).reverse) 0).reverse)

/-- Python `"\n".join(·)` (for a general separator). -/
def joinSep (sep : String) : List String → String
  | [] => ""
  | [x] => x
  | x :: y :: ys => x ++ sep ++ joinSep sep (y :: ys)

/-- `s.replace(",", " ")` — the final substitution applied to the whole
fallback template (`app.py` line 1704). -/
def replaceCommas (s : String) : String :=
  String.mk (s.data.map fun c => if c = ',' then ' ' else c)

/-- The critical-document keys scanned by `fallback_report`
(`app.py` line 1668). -/
def MISSING_KEYS : List String :=
  ["mpzp_wz_extract", "map_for_design", "geotech_opinion",
   "power_conditions", "water_conditions", "sewage_conditions"]

/-- The `missing_human` dictionary (`app.py` lines 1672–1679), read with
`missing_human.get(m, m)`. -/
def missing_human (k : String) : String :=
  if k = "mpzp_wz_extract" then "Wypis i wyrys MPZP / decyzja WZ"
  else if k = "map_for_design" then "Mapa do celów projektowych (geodeta)"
  else if k = "geotech_opinion" then "Opinia geotechniczna"
  else if k = "power_conditions" then "Warunki przyłączenia energii elektrycznej"
  else if k = "water_conditions" then "Warunki przyłączenia wody"
  else if k = "sewage_conditions" then "Warunki przyłączenia kanalizacji sanitarnej"
  else k

/-- `fallback_report` (`app.py` lines 1657–1704): the deterministic
estimator, producing the full report text (including the final
`.replace(",", " ")` of the whole template).  Caveat of the exact-ℚ
product convention: the rendered unit-cost figure `int(base*mult)` can
differ from CPython by one PLN for multipliers whose rounded float
product lands exactly on an integer (e.g. Standard/Wieś renders 5699
here where CPython's `6000*0.95` rounds to exactly `5700.0`); no
theorem below depends on that digit — the generator theorems compare
this same function on both sides, exactly as the source appends to its
own `fallback_report(...)` call — and the totals at every input a
theorem evaluates were checked against the float semantics. -/
def fallback_report (form : Form) (pricing_text : String) : String :=
  let area := form_area form
  let standard := form_key form "cost_standard" "Standard"
  let region := form_key form "region_type" "Mniejsze miasto / okolice"
  let low := build_low area standard region
  let high := build_high area standard region
  let missing := MISSING_KEYS.filter (fun k => formFalsy form k)
  let missing_list :=
    if missing = [] then "- (brak krytycznych braków wykrytych)"
    else joinSep "\n" (missing.map (fun m => "- " ++ missing_human m))
  let pricing_note :=
    if pyStrip pricing_text = "" then
      "Cennik firmy jest pusty lub niepodany – nie wyliczono wynagrodzenia projektowego."
    else "Cennik firmy został dołączony do analizy."
  replaceCommas
    ("RAPORT (tryb bez AI)\n\n1) Podsumowanie briefu\n- Typ obiektu: " ++
      fgetStr form "object_type" ++ "\n- Lokalizacja: " ++
      fgetStr form "plot_address" ++ "\n- Program (opis): " ++
      fgetStr form "program_overview" ++
      "\n\n2) Braki / dokumenty do pozyskania\n" ++ missing_list ++
      "\n\n3) Wstępny koszt budowy (szacunek orientacyjny – V1)\n- Założenia: standard=" ++
      standard ++ ", region=" ++ region ++ "\n- Koszt m²: ok. " ++
      intStr (pytrunc (fallback_base standard * fallback_mult region)) ++
      " PLN/m²\n- Estymacja: " ++ commaSep low ++ " – " ++ commaSep high ++
      " PLN (orientacyjnie)\n\n4) Cennik / koszt projektu\n- " ++ pricing_note ++
      "\n\nUwaga: raport ma charakter informacyjny (MVP). Tryb AI generuje analizę ryzyk, checklisty formalne i listę pytań uzupełniających.\n")

/-- The observable outcome of the `try` block of `ai_report`
(`app.py` lines 1769–1788), abstracting the backend call and
`json.loads`: an exception anywhere in the block (API failure, timeout,
or a JSON decode error on non-JSON content), a decode that is not a
dict (including empty content, where `data = None`), or a decoded dict
whose deterministic rendering by `render_architect_report` is the given
string. -/
inductive AIOutcome where
  | raised (ename emsg : String)
  | decodedNonObject
  | decodedObject (rendered : String)
deriving DecidableEq

/-- The generation backend environment: `configured` is
`OPENAI_API_KEY and OpenAI is not None` (`app.py` line 1707), and
`outcome` the behaviour of the call. -/
structure AIEnv where
  configured : Bool
  outcome : AIOutcome
deriving DecidableEq

/-- `ai_report` (`app.py` lines 1706–1788).  The request payload
(`system`, `user_payload`, baseline numbers) does not influence the
returned text and is omitted; `company`/`architect` only feed that
payload and the renderer.  Every failure path of the source is covered:
unconfigured backend → plain fallback; exception or non-JSON → fallback
plus `[AI ERROR: <type>: <msg>]`; decoded non-dict → fallback plus
`[AI ERROR: invalid JSON]`. -/
def ai_report (env : AIEnv) (form : Form) (pricing_text : String) : String :=
  if env.configured = false then fallback_report form pricing_text
  else
    match env.outcome with
    | .raised en em =>
        fallback_report form pricing_text ++ ("\n\n[AI ERROR: " ++ en ++ ": " ++ em ++ "]")
    | .decodedNonObject =>
        fallback_report form pricing_text ++ "\n\n[AI ERROR: invalid JSON]"
    | .decodedObject rendered => rendered

/-- The `(ok, reason)` result of one e-mail channel function
(`send_email_via_resend` / `send_email_via_smtp`); the channel internals
(config checks, HTTP status, SMTP session) are abstracted into the
outcome of its single invocation. -/
structure ChannelResult where
  ok : Bool
  detail : String
deriving DecidableEq

/-- The delivery environment: outcome of the primary (Resend HTTPS) and
secondary (SMTP) channel, were each to be attempted. -/
structure EmailEnv where
  resend : ChannelResult
  smtp : ChannelResult
deriving DecidableEq

/-- Observable outcome of `send_email`: the returned boolean and how
often each channel function was invoked. -/
structure SendOutcome where
  sent : Bool
  resend_attempts : ℕ
  smtp_attempts : ℕ
deriving DecidableEq

/-- `send_email` (`app.py` lines 1854–1872): strip the recipient; an
empty recipient fails with no attempt; otherwise try Resend once, and
only if it did not succeed try SMTP once, returning the SMTP result. -/
def send_email (env : EmailEnv) (to_email : String) : SendOutcome :=
  let t := pyStrip to_email
  if t = "" then ⟨false, 0, 0⟩
  else if env.resend.ok then ⟨true, 1, 0⟩
  else if env.smtp.ok then ⟨true, 1, 1⟩
  else ⟨false, 1, 1⟩

/-- A small concrete form used by concrete instances below. -/
def form0 : Form :=
  [("usable_area_m2", .s "8500"), ("cost_standard", .s "Standard"),
   ("object_type", .s "hala")]

/-- An architect record, restricted to the fields the pipeline reads
(`architect.get("id"/"name"/"email")`, absent keys read as `""`). -/
structure Architect where
  id : String
  name : String
  email : String
deriving DecidableEq

/-- The name-like keys probed by `_pick_title_from_form`
(`app.py` lines 720–725). -/
def TITLE_KEYS : List String :=
  ["project_name", "investment_name", "project", "investment_title",
   "client_project", "name_of_investment", "investor_company",
   "company_name", "client_company", "location", "site_location"]

/-- `str(form_clean.get(k) or "").strip()` (`app.py` line 727). -/
def titleCand (form : Form) (k : String) : String :=
  pyStrip (match List.lookup k form with
    | some v => if pyTruthy v then pyValStr v else ""
    | none => "")

/-- `_pick_title_from_form` (`app.py` lines 718–730): first non-empty
candidate, truncated to 80 characters, else the fixed default. -/
def _pick_title_from_form (form : Form) : String :=
  match TITLE_KEYS.find? (fun k => !(titleCand form k == "")) with
  | some k => String.mk ((titleCand form k).data.take 80)
  | none => "Brief inwestorski"

/-- `_clean_value` (`app.py` lines 801–807) on form values (the `None`
input case cannot arise: request form values are strings or the coerced
booleans). -/
def _clean_value (v : PyVal) : Option PyVal :=
  match v with
  | .s t =>
      let t2 := pyStrip t
      if t2 = "" then none else some (.s t2)
  | .b b => some (.b b)

/-- `_clean_form_dict` (`app.py` lines 809–816). -/
def _clean_form_dict (d : Form) : Form :=
  d.filterMap fun e => (_clean_value e.2).map (fun v => (e.1, v))

/-- The `form_dict` construction of `submit_form` (`app.py` lines
3404–3412): drop the `attachments` key and coerce the checkbox sentinel
`"1"` to `True`.  The request form is modelled with unique keys (the
underlying dict keeps the last duplicate). -/
def buildFormDict (fd : List (String × String)) : Form :=
  fd.filterMap fun e =>
    if e.1 = "attachments" then none
    else some (e.1, if e.2 = "1" then PyVal.b true else PyVal.s e.2)

/-- The counter write of `_increment_forms_sent` (`app.py` line 712):
`c["usage"]["forms_sent"] = int(c["usage"].get("forms_sent") or 0) + 1`
on a record whose usage period was just ensured. -/
def bumpCompany (pk : String) (c : Company) : Company :=
  { c with usage := some ⟨((c.usage).getD ⟨pk, none⟩).period, some (usage_sent c + 1)⟩ }

/-- `_increment_forms_sent` (`app.py` lines 709–712).  On a missing id
the source would raise `KeyError`; every caller has already checked
membership, so that branch is unreachable and modelled as a no-op. -/
def _increment_forms_sent (pk : String) (db : DB) (cid : String) : DB :=
  match db.companies cid with
  | some c => setCompany db cid (bumpCompany pk (_ensure_usage_period pk c))
  | none => db

/-- `_store_report` (`app.py` lines 732–764): no-op when the company id
is missing; otherwise prepend the new report record and cut the history
at `max(1, MAX_REPORTS_PER_COMPANY or 50)`.  The random report id and
the timestamp are passed in. -/
def _store_report (db : DB) (cid rid : String) (now : ℤ) (report_text : String)
    (form_clean : Form) (arch : Architect) (delivery_id : String)
    (email_sent : Bool) (max_reports : ℤ) : DB :=
  match db.companies cid with
  | none => db
  | some c =>
      let item : Report :=
        ⟨rid, now, _pick_title_from_form form_clean, arch.id, arch.name,
         arch.email, delivery_id, email_sent, report_text⟩
      let cap := max 1 (if max_reports = 0 then 50 else max_reports)
      setCompany db cid { c with reports := (item :: c.reports).take cap.toNat }

/-- The page returned by one invocation of the submission endpoint. -/
inductive Page where
  | invalidLink
  | unavailable
  | dataError
  | limitReached
  | alreadyProcessed
  | accepted
deriving DecidableEq

/-- The request environment of one `submit_form` invocation: the result
of `find_by_token` (company id and architect), `subscription_active`,
the posted form fields, the clock and current period key, the backend
and e-mail channel behaviour, the generated random ids, and whether the
archival step (`_store_report` or its `_save_db`) raises. -/
structure SubmitEnv where
  resolved : Option (String × Architect)
  sub_active : Bool
  formdata : List (String × String)
  now : ℤ
  pk : String
  ai : AIEnv
  email : EmailEnv
  delivery_id : String
  report_id : String
  store_raises : Bool

/-- The observable outcome of `submit_form`: HTTP status and page, the
durable database after the last successful `_save_db`, the number of
`ai_report` invocations, the channel attempt counts, and the `sent`
flag recorded for the report. -/
structure SubmitOut where
  status : ℕ
  page : Page
  disk : DB
  gen_calls : ℕ
  resend_attempts : ℕ
  smtp_attempts : ℕ
  email_sent : Bool

/-- The tail of `submit_form` past the idempotency gate (`app.py` lines
3401–3458): increment and persist the quota counter, clean the form,
generate the report, attempt delivery when the architect has an e-mail,
then archive inside `try/except` — a raising archival step leaves the
durable state at the post-increment snapshot and is otherwise ignored. -/
def submit_pipeline (cfg : Config) (env : SubmitEnv) (dbm : DB) (cid : String)
    (arch : Architect) (c : Company) : SubmitOut :=
  let db3 := _increment_forms_sent env.pk dbm cid
  let form_clean := _clean_form_dict (buildFormDict env.formdata)
  let report := ai_report env.ai form_clean c.pricing_text
  let eo := if arch.email ≠ "" then send_email env.email arch.email else ⟨false, 0, 0⟩
  let disk :=
    if env.store_raises then db3
    else _store_report db3 cid env.report_id env.now report
      (_clean_form_dict (buildFormDict env.formdata)) arch env.delivery_id eo.sent
      cfg.max_reports
  ⟨200, .accepted, disk, 1, eo.resend_attempts, eo.smtp_attempts, eo.sent⟩

/-- `submit_form` (`app.py` lines 3360–3458): link resolution (404),
access check (403), company lookup (500), quota gate (429), then — only
when a submit token is present — the idempotency guard, whose positive
answer short-circuits with the neutral "already registered" page before
any further work; a fresh token is persisted and the pipeline runs. -/
def submit_form (cfg : Config) (env : SubmitEnv) (db : DB) : SubmitOut :=
  match env.resolved with
  | none => ⟨404, .invalidLink, db, 0, 0, 0, false⟩
  | some (cid, arch) =>
      if env.sub_active = false then ⟨403, .unavailable, db, 0, 0, 0, false⟩
      else if cid = "" then ⟨500, .dataError, db, 0, 0, 0, false⟩
      else
        match db.companies cid with
        | none => ⟨500, .dataError, db, 0, 0, 0, false⟩
        | some c =>
            let c1 := _ensure_usage_period env.pk c
            let db1 := setCompany db cid c1
            if _forms_remaining cfg env.pk c1 ≤ 0 then ⟨429, .limitReached, db, 0, 0, 0, false⟩
            else
              let tok := (List.lookup "_submit_token" env.formdata).getD ""
              if tok = "" then submit_pipeline cfg env db1 cid arch c
              else
                match _mark_submit_token_used db1 tok env.now SUBMIT_TOKEN_TTL with
                | (true, _) => ⟨200, .alreadyProcessed, db, 0, 0, 0, false⟩
                | (false, db2) => submit_pipeline cfg env db2 cid arch c

/-- A concrete company on the free plan with a current period and no
submissions sent. -/
def company0 : Company := ⟨some "free", none, some ⟨"2026-10", some 0⟩, "cennik", []⟩

/-- A concrete free-plan company that has exhausted its quota (3 of 3). -/
def companyFull : Company := ⟨some "free", none, some ⟨"2026-10", some 3⟩, "", []⟩

def arch0 : Architect := ⟨"arch_1", "Anna", "anna@example.com"⟩

/-- A database holding `company0` under id `"acme"` and one submit token
`"tokA"` recorded at time 100. -/
def db0 : DB :=
  ⟨fun k => if k = "acme" then some company0 else none,
   fun k => if k = "tokA" then some 100 else none⟩

/-- A database holding the exhausted company and the used token. -/
def dbFull : DB :=
  ⟨fun k => if k = "acme" then some companyFull else none,
   fun k => if k = "tokA" then some 100 else none⟩

def emailEnv0 : EmailEnv := ⟨⟨true, "RESEND OK"⟩, ⟨true, "SMTP OK"⟩⟩

/-- A concrete request environment replaying the already-used token
`"tokA"`. -/
def envReplay : SubmitEnv :=
  ⟨some ("acme", arch0), true, [("_submit_token", "tokA"), ("object_type", "hala")],
   200, "2026-10", ⟨false, .decodedNonObject⟩, emailEnv0, "del_1", "rep_1", false⟩

/-- A concrete request environment with a fresh token `"tokB"` whose
archival step raises. -/
def envStoreFail : SubmitEnv :=
  ⟨some ("acme", arch0), true, [("_submit_token", "tokB"), ("object_type", "hala")],
   200, "2026-10", ⟨false, .decodedNonObject⟩, emailEnv0, "del_1", "rep_1", true⟩

lemma pytrunc_eq_of_bounds (q : ℚ) (n : ℤ) (h0 : 0 ≤ q) (h1 : (n : ℚ) ≤ q)
    (h2 : q < n + 1) : pytrunc q = n := by
  rw [pytrunc, if_pos h0]
  exact Int.floor_eq_iff.mpr ⟨h1, by exact_mod_cast h2⟩

lemma fallback_base_pos (standard : String) : 0 < fallback_base standard := by
  unfold fallback_base BUILD_COST_M2_PLN
  split_ifs <;> norm_num

lemma fallback_mult_pos (region : String) : 0 < fallback_mult region := by
  unfold fallback_mult REGION_MULTIPLIER lit115 lit105 lit095
  split_ifs <;> norm_num

lemma lit09_pos : 0 < lit09 := by unfold lit09; norm_num

lemma lit115_pos : 0 < lit115 := by unfold lit115; norm_num

lemma ai_unit_mid_pos (standard region : String) : 0 < ai_unit_mid standard region :=
  mul_pos (fallback_base_pos standard) (fallback_mult_pos region)

lemma base_standard : fallback_base "Standard" = 6000 := by
  simp [fallback_base, BUILD_COST_M2_PLN]

lemma mult_town : fallback_mult "Mniejsze miasto / okolice" = 1 := by
  simp [fallback_mult, REGION_MULTIPLIER]

/-- C7 counterexample: with the standard tier and unit region multiplier,
the areas `1` and `1 + 2 ^ (-20)` (two distinct positive binary64 values)
yield the *same* low total `5400`, so strictly increasing the declared
area does not strictly increase the low total. -/
theorem C7_strict_monotonic_counterexample :
    0 < (1 : ℚ) ∧ (1 : ℚ) < a2val ∧
      build_low 1 "Standard" "Mniejsze miasto / okolice" = 5400 ∧
      build_low a2val "Standard" "Mniejsze miasto / okolice" = 5400 := by
  refine ⟨by norm_num, by unfold a2val; norm_num, ?_, ?_⟩
  · rw [build_low, if_pos (by norm_num), base_standard, mult_town]
    apply pytrunc_eq_of_bounds <;> unfold lit09 <;> norm_num
  · rw [build_low, if_pos (by unfold a2val; norm_num), base_standard, mult_town]
    apply pytrunc_eq_of_bounds <;> unfold lit09 a2val <;> norm_num

lemma pytrunc_mono_of_nonneg (p q : ℚ) (h0 : 0 ≤ p) (hpq : p ≤ q) :
    pytrunc p ≤ pytrunc q := by
  rw [pytrunc, pytrunc, if_pos h0, if_pos (le_trans h0 hpq)]
  exact Int.floor_le_floor hpq

/-- C7 amended: holding the standard selector and the region fixed and
strictly increasing a positive declared area, none of the estimator's
totals decreases — the truncated low/high totals of the rendered report
(`build_low`/`build_high`) and the untruncated baseline low/mid/high
totals of `ai_report` are all monotone non-decreasing; the strict
increase the claim asserts fails (truncation to whole PLN, and in the
program also per-product float rounding, can merge distinct areas). -/
theorem C7_area_monotonic (s r : String) (a1 a2 : ℚ) (h0 : 0 < a1) (h12 : a1 < a2) :
    build_low a1 s r ≤ build_low a2 s r ∧
      build_high a1 s r ≤ build_high a2 s r ∧
      ai_total_low a1 s r ≤ ai_total_low a2 s r ∧
      ai_total_mid a1 s r ≤ ai_total_mid a2 s r ∧
      ai_total_high a1 s r ≤ ai_total_high a2 s r := by
  have hb := fallback_base_pos s
  have hm := fallback_mult_pos r
  have hu := ai_unit_mid_pos s r
  have h1 : a1 ≠ 0 := ne_of_gt h0
  have h2 : a2 ≠ 0 := ne_of_gt (lt_trans h0 h12)
  have hstep : ∀ L : ℚ, 0 < L →
      a1 * fallback_base s * fallback_mult r * L ≤ a2 * fallback_base s * fallback_mult r * L := by
    intro L hL
    exact mul_le_mul_of_nonneg_right
      (mul_le_mul_of_nonneg_right (mul_le_mul_of_nonneg_right h12.le hb.le) hm.le) hL.le
  have hnn : ∀ L : ℚ, 0 < L → 0 ≤ a1 * fallback_base s * fallback_mult r * L := by
    intro L hL
    positivity
  refine ⟨?_, ?_, ?_, ?_, ?_⟩
  · rw [build_low, build_low, if_pos h1, if_pos h2]
    exact pytrunc_mono_of_nonneg _ _ (hnn _ lit09_pos) (hstep _ lit09_pos)
  · rw [build_high, build_high, if_pos h1, if_pos h2]
    exact pytrunc_mono_of_nonneg _ _ (hnn _ lit115_pos) (hstep _ lit115_pos)
  · rw [ai_total_low, ai_total_low, if_pos h1, if_pos h2]
    exact mul_le_mul_of_nonneg_right h12.le (mul_pos hu lit09_pos).le
  · rw [ai_total_mid, ai_total_mid, if_pos h1, if_pos h2]
    exact mul_le_mul_of_nonneg_right h12.le hu.le
  · rw [ai_total_high, ai_total_high, if_pos h1, if_pos h2]
    exact mul_le_mul_of_nonneg_right h12.le (mul_pos hu lit115_pos).le

theorem C7_area_monotonic_witness :
    build_low 1 "Standard" "Wieś" ≤ build_low 2 "Standard" "Wieś" ∧
      build_high 1 "Standard" "Wieś" ≤ build_high 2 "Standard" "Wieś" ∧
      ai_total_low 1 "Standard" "Wieś" ≤ ai_total_low 2 "Standard" "Wieś" ∧
      ai_total_mid 1 "Standard" "Wieś" ≤ ai_total_mid 2 "Standard" "Wieś" ∧
      ai_total_high 1 "Standard" "Wieś" ≤ ai_total_high 2 "Standard" "Wieś" :=
  C7_area_monotonic "Standard" "Wieś" 1 2 (by norm_num) (by norm_num)

/-- C8 counterexample: at area 8500 m², standard tier (6000 PLN/m²) and
region multiplier 1.0, the code's high total is `int(51000000 * 1.15)`,
which evaluates to 58 649 999 — not the claimed 58 650 000 — because the
binary64 value of the literal `1.15` is slightly below 23/20 and `int(·)`
truncates. -/
theorem C8_scenario_counterexample :
    build_high 8500 "Standard" "Mniejsze miasto / okolice" = 58649999 ∧
      (58649999 : ℤ) ≠ 58650000 := by
  constructor
  · rw [build_high, if_pos (by norm_num), base_standard, mult_town]
    apply pytrunc_eq_of_bounds <;> unfold lit115 <;> norm_num
  · decide

/-- C8 amended: for area 8500 with standard "Standard" (6000 PLN/m²) and
region multiplier 1.0, the mid total is 51 000 000 and the low total is
45 900 000 as claimed, but the high total the code produces is
58 649 999 (one PLN below mid × 1.15, by binary64 rounding of the
literal 1.15 followed by `int` truncation). -/
theorem C8_scenario_values :
    ai_total_mid 8500 "Standard" "Mniejsze miasto / okolice" = 51000000 ∧
      build_low 8500 "Standard" "Mniejsze miasto / okolice" = 45900000 ∧
      build_high 8500 "Standard" "Mniejsze miasto / okolice" = 58649999 := by
  refine ⟨?_, ?_, ?_⟩
  · rw [ai_total_mid, if_pos (by norm_num), ai_unit_mid, base_standard, mult_town]
    norm_num
  · rw [build_low, if_pos (by norm_num), base_standard, mult_town]
    apply pytrunc_eq_of_bounds <;> unfold lit09 <;> norm_num
  · rw [build_high, if_pos (by norm_num), base_standard, mult_town]
    apply pytrunc_eq_of_bounds <;> unfold lit115 <;> norm_num

lemma company_plan_ensure (cfg : Config) (pk : String) (c : Company) :
    _company_plan cfg (_ensure_usage_period pk c) = _company_plan cfg c := by
  rw [_ensure_usage_period]
  split <;> rfl

lemma forms_limit_eq_ceiling (cfg : Config) (c : Company)
    (hfree : cfg.enable_free_plan = true) :
    _forms_limit cfg c = ceilingSpec cfg (_company_plan cfg c) := by
  rw [_forms_limit, ceilingSpec, hfree]
  split <;> simp

/-- C4 counterexample: a free-plan tenant in the current period with
`forms_sent = 4` (one above the ceiling 3) has remaining quota 0, while
`ceiling(plan) - usage.submissions_sent = -1`, so the claimed equation
`remaining = ceiling - sent` fails (the code clamps at zero). -/
theorem C4_remaining_clamp_counterexample :
    _forms_remaining defaultConfig "2026-10" c4ex = 0 ∧
      ceilingSpec defaultConfig (_company_plan defaultConfig c4ex) -
          usage_sent (_ensure_usage_period "2026-10" c4ex) = -1 ∧
      (0 : ℤ) ≠ -1 := by
  refine ⟨?_, ?_, by decide⟩
  · rfl
  · rfl

/-- C4 amended: with the free plan enabled, the remaining quota after the
period reset equals `max 0 (ceiling(plan) - usage.submissions_sent)`:
it equals `ceiling(plan) - sent` whenever `sent ≤ ceiling(plan)` (in
particular after a fresh reset), it is never negative, and it clamps to
zero when the counter exceeds the ceiling. -/
theorem C4_remaining_formula (cfg : Config) (pk : String) (c : Company)
    (hfree : cfg.enable_free_plan = true) :
    0 ≤ _forms_remaining cfg pk c ∧
      _forms_remaining cfg pk c =
        max 0 (ceilingSpec cfg (_company_plan cfg c) -
          usage_sent (_ensure_usage_period pk c)) ∧
      (usage_sent (_ensure_usage_period pk c) ≤ ceilingSpec cfg (_company_plan cfg c) →
        _forms_remaining cfg pk c =
          ceilingSpec cfg (_company_plan cfg c) -
            usage_sent (_ensure_usage_period pk c)) := by
  have hmain : _forms_remaining cfg pk c =
      max 0 (ceilingSpec cfg (_company_plan cfg c) -
        usage_sent (_ensure_usage_period pk c)) := by
    rw [_forms_remaining, forms_limit_eq_ceiling cfg _ hfree, company_plan_ensure]
  refine ⟨by rw [hmain]; exact le_max_left _ _, hmain, fun hle => ?_⟩
  rw [hmain, max_eq_right (by omega)]

theorem C4_remaining_formula_witness :
    0 ≤ _forms_remaining defaultConfig "2026-10"
        ⟨some "free", none, some ⟨"2026-10", some 1⟩, "", []⟩ ∧
      _forms_remaining defaultConfig "2026-10"
          ⟨some "free", none, some ⟨"2026-10", some 1⟩, "", []⟩ =
        max 0 (ceilingSpec defaultConfig (_company_plan defaultConfig
            ⟨some "free", none, some ⟨"2026-10", some 1⟩, "", []⟩) -
          usage_sent (_ensure_usage_period "2026-10"
            ⟨some "free", none, some ⟨"2026-10", some 1⟩, "", []⟩)) ∧
      (usage_sent (_ensure_usage_period "2026-10"
          ⟨some "free", none, some ⟨"2026-10", some 1⟩, "", []⟩) ≤
          ceilingSpec defaultConfig (_company_plan defaultConfig
            ⟨some "free", none, some ⟨"2026-10", some 1⟩, "", []⟩) →
        _forms_remaining defaultConfig "2026-10"
            ⟨some "free", none, some ⟨"2026-10", some 1⟩, "", []⟩ =
          ceilingSpec defaultConfig (_company_plan defaultConfig
              ⟨some "free", none, some ⟨"2026-10", some 1⟩, "", []⟩) -
            usage_sent (_ensure_usage_period "2026-10"
              ⟨some "free", none, some ⟨"2026-10", some 1⟩, "", []⟩)) :=
  C4_remaining_formula defaultConfig "2026-10"
    ⟨some "free", none, some ⟨"2026-10", some 1⟩, "", []⟩ rfl

/-- C1 counterexample: a token first claimed at time 0 (reported "not
previously used") is claimed again 6 hours and 1 second later, and the
guard again reports "not previously used" — the expired entry was pruned
and the token is re-accepted, contradicting "never re-acceptable". -/
theorem C1_token_ttl_counterexample :
    (_mark_submit_token_used dbEmpty "tok" 0 SUBMIT_TOKEN_TTL).1 = false ∧
      (_mark_submit_token_used
        (_mark_submit_token_used dbEmpty "tok" 0 SUBMIT_TOKEN_TTL).2
        "tok" 21601 SUBMIT_TOKEN_TTL).1 = false := by
  constructor
  · rfl
  · rfl

/-- C1 amended: after a first call for a token returns "not previously
used", every retry made while the recorded entry is at most the TTL old
returns "already used"; but once strictly more than the TTL has elapsed
since the recorded use, the entry is pruned by the lazy sweep and the
same token is accepted again (the guard returns "not previously used"). -/
theorem C1_token_single_use_within_ttl (db : DB) (tok : String) (now1 now2 ttl : ℤ)
    (hfirst : (_mark_submit_token_used db tok now1 ttl).1 = false) :
    (now2 - now1 ≤ ttl →
      (_mark_submit_token_used (_mark_submit_token_used db tok now1 ttl).2
        tok now2 ttl).1 = true) ∧
    (ttl < now2 - now1 →
      (_mark_submit_token_used (_mark_submit_token_used db tok now1 ttl).2
        tok now2 ttl).1 = false) := by
  cases hp : _prune db.submit_tokens now1 ttl tok with
  | some ts =>
      rw [_mark_submit_token_used, hp] at hfirst
      simp at hfirst
  | none =>
      have hdb : (_mark_submit_token_used db tok now1 ttl).2 = markInsert db tok now1 ttl := by
        rw [_mark_submit_token_used, hp]
      constructor <;> intro h
      · rw [hdb, _mark_submit_token_used]
        simp [markInsert, _prune, not_lt.mpr h]
      · rw [hdb, _mark_submit_token_used]
        simp [markInsert, _prune, h]

theorem C1_token_single_use_within_ttl_witness :
    (_mark_submit_token_used (_mark_submit_token_used dbEmpty "tokW" 100 21600).2
        "tokW" 7300 21600).1 = true ∧
      (_mark_submit_token_used (_mark_submit_token_used dbEmpty "tokW" 100 21600).2
        "tokW" 21701 21600).1 = false :=
  ⟨(C1_token_single_use_within_ttl dbEmpty "tokW" 100 7300 21600 rfl).1 (by decide),
   (C1_token_single_use_within_ttl dbEmpty "tokW" 100 21701 21600 rfl).2 (by decide)⟩

lemma string_append_cancel {s t : String} (h : s ++ t = s) : t = "" := by
  cases s with
  | mk ld =>
      cases t with
      | mk td =>
          have hd : ld ++ td = ld := congrArg String.data h
          have : td = [] := by
            have h2 : ld ++ td = ld ++ [] := by simpa using hd
            exact List.append_cancel_left h2
          simp [this]

lemma string_append_left_ne {s : String} (t : String) (hs : s ≠ "") : s ++ t ≠ "" := by
  intro h
  apply hs
  cases s with
  | mk ld =>
      cases t with
      | mk td =>
          have hd : ld ++ td = [] := congrArg String.data h
          have : ld = [] := (List.append_eq_nil.mp hd).1
          simp [this]

/-- C3 counterexample: with the backend unconfigured (no API key or no
client library), `ai_report` returns the fallback report *verbatim* —
no error text of any kind is appended, so the claimed visible non-empty
error mark is absent in this failure mode. -/
theorem C3_unconfigured_counterexample :
    ai_report ⟨false, AIOutcome.decodedNonObject⟩ form0 "cennik" =
        fallback_report form0 "cennik" ∧
      ¬ ∃ ann : String, ann ≠ "" ∧
        ai_report ⟨false, AIOutcome.decodedNonObject⟩ form0 "cennik" =
          fallback_report form0 "cennik" ++ ann := by
  have h1 : ai_report ⟨false, AIOutcome.decodedNonObject⟩ form0 "cennik" =
      fallback_report form0 "cennik" := rfl
  refine ⟨h1, ?_⟩
  rintro ⟨ann, hne, heq⟩
  rw [h1] at heq
  exact hne (string_append_cancel heq.symm)

/-- C3 amended: when the backend is configured and the call raises, or
the response decodes to a non-object (or does not decode), `ai_report`
returns the estimator's `fallback_report` output with a non-empty
`[AI ERROR: ...]` text appended and does not raise; but when the backend
is *unconfigured* it returns the fallback output verbatim, with no
error text. -/
theorem C3_degradation_annotated (env : AIEnv) (form : Form) (pricing : String) :
    (env.configured = false → ai_report env form pricing = fallback_report form pricing) ∧
      (∀ en em, env.configured = true → env.outcome = .raised en em →
        ∃ ann, ann ≠ "" ∧
          ai_report env form pricing = fallback_report form pricing ++ ann) ∧
      (env.configured = true → env.outcome = .decodedNonObject →
        ∃ ann, ann ≠ "" ∧
          ai_report env form pricing = fallback_report form pricing ++ ann) := by
  refine ⟨fun h => by simp [ai_report, h], fun en em hc ho => ?_, fun hc ho => ?_⟩
  · refine ⟨"\n\n[AI ERROR: " ++ en ++ ": " ++ em ++ "]", ?_, by simp [ai_report, hc, ho]⟩
    exact string_append_left_ne "]"
      (string_append_left_ne em
        (string_append_left_ne ": " (string_append_left_ne en (by decide))))
  · refine ⟨"\n\n[AI ERROR: invalid JSON]", by decide, by simp [ai_report, hc, ho]⟩

theorem C3_degradation_annotated_witness :
    ∃ ann, ann ≠ "" ∧
      ai_report ⟨true, .raised "APIConnectionError" "timeout"⟩ form0 "cennik" =
        fallback_report form0 "cennik" ++ ann :=
  (C3_degradation_annotated ⟨true, .raised "APIConnectionError" "timeout"⟩
      form0 "cennik").2.1 "APIConnectionError" "timeout" rfl rfl

/-- C6: `send_email` fails with no channel attempt when the stripped
recipient is empty; otherwise the primary (Resend) channel is attempted
exactly once; if and only if it did not succeed, the secondary (SMTP)
channel is attempted exactly once and the secondary's result is the
returned boolean. -/
theorem C6_delivery_fallback (env : EmailEnv) (to_email : String) :
    (pyStrip to_email = "" → send_email env to_email = ⟨false, 0, 0⟩) ∧
      (pyStrip to_email ≠ "" →
        (send_email env to_email).resend_attempts = 1 ∧
          (env.resend.ok = true → send_email env to_email = ⟨true, 1, 0⟩) ∧
          (env.resend.ok = false →
            (send_email env to_email).smtp_attempts = 1 ∧
              (send_email env to_email).sent = env.smtp.ok)) := by
  constructor
  · intro h
    simp [send_email, h]
  · intro h
    refine ⟨?_, fun hr => ?_, fun hr => ?_⟩
    · by_cases hr : env.resend.ok <;> by_cases hs : env.smtp.ok <;>
        simp [send_email, h, hr, hs]
    · simp [send_email, h, hr]
    · by_cases hs : env.smtp.ok <;> simp [send_email, h, hr, hs]

theorem C6_delivery_fallback_witness :
    (send_email ⟨⟨false, "RESEND FAIL status=500"⟩, ⟨true, "SMTP OK"⟩⟩
        "arch@example.com").smtp_attempts = 1 ∧
      (send_email ⟨⟨false, "RESEND FAIL status=500"⟩, ⟨true, "SMTP OK"⟩⟩
        "arch@example.com").sent =
        (⟨⟨false, "RESEND FAIL status=500"⟩, ⟨true, "SMTP OK"⟩⟩ : EmailEnv).smtp.ok :=
  ((C6_delivery_fallback ⟨⟨false, "RESEND FAIL status=500"⟩, ⟨true, "SMTP OK"⟩⟩
      "arch@example.com").2 (by decide)).2.2 rfl

lemma ensure_idem (pk : String) (c : Company) :
    _ensure_usage_period pk (_ensure_usage_period pk c) = _ensure_usage_period pk c := by
  unfold _ensure_usage_period
  by_cases h : (c.usage.map Usage.period) = some pk <;> simp [h]

lemma remaining_ensure (cfg : Config) (pk : String) (c : Company) :
    _forms_remaining cfg pk (_ensure_usage_period pk c) = _forms_remaining cfg pk c := by
  rw [_forms_remaining, _forms_remaining, ensure_idem]

lemma ensure_reports (pk : String) (c : Company) :
    (_ensure_usage_period pk c).reports = c.reports := by
  rw [_ensure_usage_period]
  split <;> rfl

/-- C2: when the request passes the link, access and quota gates, and the
idempotency guard reports the carried token as already used (it is in
the registry, not older than the TTL), `submit_form` returns the neutral
"already processed" page with no side effects: the durable database is
unchanged (no quota increment, no history append, no token-registry
write) and neither generation nor either delivery channel is invoked. -/
theorem C2_duplicate_submit_no_side_effects
    (cfg : Config) (env : SubmitEnv) (db : DB) (cid : String) (arch : Architect)
    (c : Company) (tok : String) (ts : ℤ)
    (hres : env.resolved = some (cid, arch))
    (hact : env.sub_active = true)
    (hcid : cid ≠ "")
    (hc : db.companies cid = some c)
    (hq : 0 < _forms_remaining cfg env.pk c)
    (htok : (List.lookup "_submit_token" env.formdata).getD "" = tok)
    (htne : tok ≠ "")
    (hreg : db.submit_tokens tok = some ts)
    (hfresh : env.now - ts ≤ SUBMIT_TOKEN_TTL) :
    submit_form cfg env db = ⟨200, .alreadyProcessed, db, 0, 0, 0, false⟩ := by
  have hnle : ¬ (_forms_remaining cfg env.pk (_ensure_usage_period env.pk c) ≤ 0) := by
    rw [remaining_ensure]; omega
  have hmark : _prune (setCompany db cid (_ensure_usage_period env.pk c)).submit_tokens
      env.now SUBMIT_TOKEN_TTL tok = some ts := by
    show _prune db.submit_tokens env.now SUBMIT_TOKEN_TTL tok = some ts
    simp [_prune, hreg, not_lt.mpr hfresh]
  simp [submit_form, hres, hact, hcid, hc, hnle, htok, htne,
    _mark_submit_token_used, hmark]

theorem C2_duplicate_submit_no_side_effects_witness :
    submit_form defaultConfig envReplay db0 =
      ⟨200, .alreadyProcessed, db0, 0, 0, 0, false⟩ :=
  C2_duplicate_submit_no_side_effects defaultConfig envReplay db0 "acme" arch0
    company0 "tokA" 100 rfl rfl (by decide) rfl (by decide) rfl (by decide) rfl
    (by decide)

/-- C5: when the request passes the link and access gates but the tenant
has no remaining quota, `submit_form` rejects with HTTP 429 before any
work: the durable database is unchanged (quota counter untouched) and
neither generation nor either delivery channel is invoked. -/
theorem C5_quota_reject_no_work
    (cfg : Config) (env : SubmitEnv) (db : DB) (cid : String) (arch : Architect)
    (c : Company)
    (hres : env.resolved = some (cid, arch))
    (hact : env.sub_active = true)
    (hcid : cid ≠ "")
    (hc : db.companies cid = some c)
    (hq : _forms_remaining cfg env.pk c ≤ 0) :
    submit_form cfg env db = ⟨429, .limitReached, db, 0, 0, 0, false⟩ := by
  have hle : _forms_remaining cfg env.pk (_ensure_usage_period env.pk c) ≤ 0 := by
    rw [remaining_ensure]; exact hq
  simp [submit_form, hres, hact, hcid, hc, hle]

theorem C5_quota_reject_no_work_witness :
    submit_form defaultConfig envReplay dbFull =
      ⟨429, .limitReached, dbFull, 0, 0, 0, false⟩ :=
  C5_quota_reject_no_work defaultConfig envReplay dbFull "acme" arch0 companyFull
    rfl rfl (by decide) rfl (by decide)

/-- C9 (implicit): the quota gate runs before the idempotency check, so a
duplicate POST — it carries a token that is in the registry and within
the TTL — arriving with the quota exhausted receives the 429 quota
rejection, not the neutral duplicate page, and the token registry is not
written. -/
theorem C9_quota_before_token
    (cfg : Config) (env : SubmitEnv) (db : DB) (cid : String) (arch : Architect)
    (c : Company) (tok : String) (ts : ℤ)
    (hres : env.resolved = some (cid, arch))
    (hact : env.sub_active = true)
    (hcid : cid ≠ "")
    (hc : db.companies cid = some c)
    (hq : _forms_remaining cfg env.pk c ≤ 0)
    (htok : (List.lookup "_submit_token" env.formdata).getD "" = tok)
    (htne : tok ≠ "")
    (hreg : db.submit_tokens tok = some ts)
    (hfresh : env.now - ts ≤ SUBMIT_TOKEN_TTL) :
    (submit_form cfg env db).status = 429 ∧
      (submit_form cfg env db).page = .limitReached ∧
      (submit_form cfg env db).page ≠ .alreadyProcessed ∧
      (submit_form cfg env db).disk = db := by
  have hle : _forms_remaining cfg env.pk (_ensure_usage_period env.pk c) ≤ 0 := by
    rw [remaining_ensure]; exact hq
  have hform : submit_form cfg env db = ⟨429, .limitReached, db, 0, 0, 0, false⟩ := by
    simp [submit_form, hres, hact, hcid, hc, hle]
  rw [hform]
  exact ⟨rfl, rfl, by simp, rfl⟩

theorem C9_quota_before_token_witness :
    (submit_form defaultConfig envReplay dbFull).status = 429 ∧
      (submit_form defaultConfig envReplay dbFull).page = .limitReached ∧
      (submit_form defaultConfig envReplay dbFull).page ≠ .alreadyProcessed ∧
      (submit_form defaultConfig envReplay dbFull).disk = dbFull :=
  C9_quota_before_token defaultConfig envReplay dbFull "acme" arch0 companyFull
    "tokA" 100 rfl rfl (by decide) rfl (by decide) rfl (by decide) rfl (by decide)

/-- C10 (implicit): a failure of the archival step (an exception from
`_store_report`/`_save_db`, which `submit_form` swallows, or the company
id missing from the store, which `_store_report` treats as a silent
no-op) does not alter the submitter-visible outcome: the success page is
returned, the quota increment persisted before generation stands, the
delivery attempts and their result are unchanged — only the report
record is absent from the company history. -/
theorem C10_store_failure_swallowed
    (cfg : Config) (env : SubmitEnv) (db : DB) (cid : String) (arch : Architect)
    (c : Company) (tok : String)
    (hres : env.resolved = some (cid, arch))
    (hact : env.sub_active = true)
    (hcid : cid ≠ "")
    (hc : db.companies cid = some c)
    (hq : 0 < _forms_remaining cfg env.pk c)
    (htok : (List.lookup "_submit_token" env.formdata).getD "" = tok)
    (htne : tok ≠ "")
    (hreg : db.submit_tokens tok = none)
    (hraise : env.store_raises = true) :
    (submit_form cfg env db).status = 200 ∧
      (submit_form cfg env db).page = .accepted ∧
      (submit_form cfg env db).gen_calls = 1 ∧
      (submit_form cfg env db).email_sent =
        (if arch.email ≠ "" then send_email env.email arch.email
          else ⟨false, 0, 0⟩).sent ∧
      (submit_form cfg env db).resend_attempts =
        (if arch.email ≠ "" then send_email env.email arch.email
          else ⟨false, 0, 0⟩).resend_attempts ∧
      (submit_form cfg env db).smtp_attempts =
        (if arch.email ≠ "" then send_email env.email arch.email
          else ⟨false, 0, 0⟩).smtp_attempts ∧
      (∃ c2, (submit_form cfg env db).disk.companies cid = some c2 ∧
        c2.reports = c.reports ∧
        usage_sent c2 = usage_sent (_ensure_usage_period env.pk c) + 1) ∧
      (∀ (db2 : DB) (cid2 rid : String) (now2 : ℤ) (rt : String) (fc : Form)
        (a : Architect) (did : String) (es : Bool) (mr : ℤ),
        db2.companies cid2 = none →
        _store_report db2 cid2 rid now2 rt fc a did es mr = db2) := by
  have hnle : ¬ (_forms_remaining cfg env.pk (_ensure_usage_period env.pk c) ≤ 0) := by
    rw [remaining_ensure]; omega
  have hprune : _prune (setCompany db cid (_ensure_usage_period env.pk c)).submit_tokens
      env.now SUBMIT_TOKEN_TTL tok = none := by
    show _prune db.submit_tokens env.now SUBMIT_TOKEN_TTL tok = none
    simp [_prune, hreg]
  have hform : submit_form cfg env db =
      submit_pipeline cfg env
        (markInsert (setCompany db cid (_ensure_usage_period env.pk c)) tok env.now
          SUBMIT_TOKEN_TTL) cid arch c := by
    simp [submit_form, hres, hact, hcid, hc, hnle, htok, htne,
      _mark_submit_token_used, hprune]
  have hlook : (markInsert (setCompany db cid (_ensure_usage_period env.pk c)) tok env.now
      SUBMIT_TOKEN_TTL).companies cid = some (_ensure_usage_period env.pk c) := by
    simp [markInsert, setCompany]
  rw [hform, submit_pipeline]
  simp only [hraise, if_true]
  rw [_increment_forms_sent, hlook]
  simp only [ensure_idem]
  refine ⟨trivial, trivial, trivial, trivial, trivial, trivial, ?_, ?_⟩
  · exact ⟨bumpCompany env.pk (_ensure_usage_period env.pk c),
      by simp [setCompany], ensure_reports env.pk c, rfl⟩
  · intro db2 cid2 rid now2 rt fc a did es mr h
    rw [_store_report, h]

theorem C10_store_failure_swallowed_witness :
    (submit_form defaultConfig envStoreFail db0).status = 200 ∧
      (submit_form defaultConfig envStoreFail db0).page = .accepted ∧
      (submit_form defaultConfig envStoreFail db0).gen_calls = 1 ∧
      (submit_form defaultConfig envStoreFail db0).email_sent =
        (if arch0.email ≠ "" then send_email envStoreFail.email arch0.email
          else ⟨false, 0, 0⟩).sent ∧
      (submit_form defaultConfig envStoreFail db0).resend_attempts =
        (if arch0.email ≠ "" then send_email envStoreFail.email arch0.email
          else ⟨false, 0, 0⟩).resend_attempts ∧
      (submit_form defaultConfig envStoreFail db0).smtp_attempts =
        (if arch0.email ≠ "" then send_email envStoreFail.email arch0.email
          else ⟨false, 0, 0⟩).smtp_attempts ∧
      (∃ c2, (submit_form defaultConfig envStoreFail db0).disk.companies "acme" = some c2 ∧
        c2.reports = company0.reports ∧
        usage_sent c2 = usage_sent (_ensure_usage_period envStoreFail.pk company0) + 1) ∧
      (∀ (db2 : DB) (cid2 rid : String) (now2 : ℤ) (rt : String) (fc : Form)
        (a : Architect) (did : String) (es : Bool) (mr : ℤ),
        db2.companies cid2 = none →
        _store_report db2 cid2 rid now2 rt fc a did es mr = db2) :=
  C10_store_failure_swallowed defaultConfig envStoreFail db0 "acme" arch0 company0
    "tokB" rfl rfl (by decide) rfl (by decide) rfl (by decide) rfl rfl

end Archibot
